import Mathlib

/-!
Verification of the record-matching, fusion and relevance-scoring engine
(`address_comparator.py`, `fusion.py`) against its natural-language
specification.

Shallow embedding conventions:
* Python `str` is Lean `String` (a list of Unicode scalar values).
* Python `float` values are modelled as rationals `ℚ`; the transcendental
  haversine distance is abstracted as an explicit function parameter.
* Python `dict` indexes are association lists where an insertion prepends,
  so that `List.find?` (first hit) realizes the "last write wins" semantics
  of dict assignment.
* `None` / missing dict entries are `Option.none`; Python truthiness of a
  string, list or float is made explicit with `truthy*` helpers.
-/

namespace JE

/-! ### Character-level helpers (model of `str.lower`, `str.strip`, `re` classes)

`pyLower` models `str.lower` on the character repertoire that matters to this
program: ASCII letters and the Latin-1 accented letters (U+00C0–U+00DE minus
the multiplication sign), each of which lower-cases by adding 32.
-/

def pyLower (c : Char) : Char :=
  if 65 ≤ c.toNat ∧ c.toNat ≤ 90 then Char.ofNat (c.toNat + 32)
  else if 192 ≤ c.toNat ∧ c.toNat ≤ 222 ∧ c.toNat ≠ 215 then Char.ofNat (c.toNat + 32)
  else c

/-- Model of the whitespace class stripped by `str.strip` / matched by `\s`
(ASCII whitespace, which is all the program's normalization ever produces). -/
def isPySpace (c : Char) : Bool :=
  c = ' ' || c = '\t' || c = '\n' || c = '\x0d' || c = '\x0b' || c = '\x0c'

/-- Model of the `\w` class of `re` (Unicode word character) restricted to the
repertoire handled here: ASCII alphanumerics, underscore, and Latin letters at
code points ≥ 0xC0 (every accented letter used by the accent table), excluding
the multiplication and division signs. Characters ≥ 0x100 are treated as word
characters (in the source data they are letters). -/
def isWordChar (c : Char) : Bool :=
  (97 ≤ c.toNat && c.toNat ≤ 122) || (65 ≤ c.toNat && c.toNat ≤ 90) ||
  (48 ≤ c.toNat && c.toNat ≤ 57) || c = '_' ||
  (192 ≤ c.toNat && c.toNat ≠ 215 && c.toNat ≠ 247)

/-- The accent-replacement table of `normalize_string`, as a character map
(the Python code applies successive `str.replace` calls whose keys are single
distinct characters, which is the same thing). -/
def accentChar (c : Char) : Char :=
  if c = 'à' ∨ c = 'á' ∨ c = 'â' ∨ c = 'ã' ∨ c = 'ä' ∨ c = 'å' then 'a'
  else if c = 'è' ∨ c = 'é' ∨ c = 'ê' ∨ c = 'ë' then 'e'
  else if c = 'ì' ∨ c = 'í' ∨ c = 'î' ∨ c = 'ï' then 'i'
  else if c = 'ò' ∨ c = 'ó' ∨ c = 'ô' ∨ c = 'õ' ∨ c = 'ö' then 'o'
  else if c = 'ù' ∨ c = 'ú' ∨ c = 'û' ∨ c = 'ü' then 'u'
  else if c = 'ç' then 'c'
  else if c = 'ñ' then 'n'
  else c

/-- One character of `re.sub(r"[^\w\s]", " ", text)`. -/
def punctToSpace (c : Char) : Char :=
  if isWordChar c || isPySpace c then c else ' '

/-- `str.strip` on a character list: drop leading and trailing whitespace. -/
def stripChars (l : List Char) : List Char :=
  (l.dropWhile isPySpace).rdropWhile isPySpace

/-- `re.sub(r"\s+", " ", text)`: replace each maximal whitespace run by a
single space. The boolean flag records whether the previous kept character
closed a whitespace run. -/
def collapseWsAux : Bool → List Char → List Char
  | _, [] => []
  | prev, c :: rest =>
    if isPySpace c then
      if prev then collapseWsAux true rest else ' ' :: collapseWsAux true rest
    else c :: collapseWsAux false rest

def collapseWs (l : List Char) : List Char := collapseWsAux false l

/-- `AddressComparator.normalize_string` on a character list:
lower-case, strip, replace accents, punctuation to spaces, collapse
whitespace, strip. -/
def normalizeChars (l : List Char) : List Char :=
  stripChars (collapseWs ((stripChars (l.map pyLower)).map (fun c => punctToSpace (accentChar c))))

/-- `AddressComparator.normalize_string` (the `if not text: return ""` guard
is the identity here, since the pipeline maps the empty string to itself). -/
def normalize_string (s : String) : String :=
  ⟨normalizeChars s.data⟩

/-! ### `str.split()` and friends -/

/-- `str.split()` with no arguments: split on whitespace runs, dropping empty
pieces. The accumulator holds the current word reversed. -/
def splitWsGo : List Char → List Char → List String
  | [], cur => if cur.isEmpty then [] else [⟨cur.reverse⟩]
  | c :: rest, cur =>
    if isPySpace c then
      if cur.isEmpty then splitWsGo rest [] else ⟨cur.reverse⟩ :: splitWsGo rest []
    else splitWsGo rest (c :: cur)

def splitWs (l : List Char) : List String := splitWsGo l []

/-- Maximal digit runs of a string, in order: `re.findall(r"\d+", text)`. -/
def digitRunsGo : List Char → List Char → List String
  | [], cur => if cur.isEmpty then [] else [⟨cur.reverse⟩]
  | c :: rest, cur =>
    if c.isDigit then digitRunsGo rest (c :: cur)
    else if cur.isEmpty then digitRunsGo rest [] else ⟨cur.reverse⟩ :: digitRunsGo rest []

/-- `AddressComparator.extract_numbers`. -/
def extract_numbers (s : String) : List String := digitRunsGo s.data []

/-! ### `difflib.SequenceMatcher.ratio`

The inputs here are short strings (far below the autojunk threshold of 200 and
with no junk predicate), so `ratio` is: recursively take the longest common
contiguous block (ties resolved towards the smallest indices), sum the block
lengths `M`, and return `2*M/(|a|+|b|)`.
-/

def commonPrefixLen : List Char → List Char → Nat
  | a :: as, b :: bs => if a = b then commonPrefixLen as bs + 1 else 0
  | _, _ => 0

/-- `SequenceMatcher.find_longest_match` over whole lists: the longest common
contiguous block `(i, j, k)` with `a[i:i+k] = b[j:j+k]`, preferring smaller
`i` then smaller `j` (the tie-break realized by difflib's scan order). -/
def longestMatch (a b : List Char) : Nat × Nat × Nat :=
  (List.range a.length).foldl (fun best i =>
    (List.range b.length).foldl (fun best j =>
      let k := commonPrefixLen (a.drop i) (b.drop j)
      if k > best.2.2 then (i, j, k) else best) best) (0, 0, 0)

/-- Total size of all matching blocks (`sum of k over get_matching_blocks`).
The fuel argument bounds the recursion depth; `a.length + 1` always
suffices because each recursive call strictly shrinks the `a`-segment. -/
def matchSum : Nat → List Char → List Char → Nat
  | 0, _, _ => 0
  | fuel + 1, a, b =>
    let m := longestMatch a b
    if m.2.2 = 0 then 0
    else
      matchSum fuel (a.take m.1) (b.take m.2.1) + m.2.2 +
        matchSum fuel (a.drop (m.1 + m.2.2)) (b.drop (m.2.1 + m.2.2))

/-! Rational arithmetic is expressed through `mkRat` and integer operations
so that every definition evaluates inside the kernel (`Rat.add`, `Rat.mul`
and `Rat.div` are opaque to it); `qAdd_eq`, `qMul_eq` and `qDivNat_eq` below
prove these are the ordinary field operations (stated with the theorems). -/

def qAdd (a b : ℚ) : ℚ := mkRat (a.num * (b.den : ℤ) + b.num * (a.den : ℤ)) (a.den * b.den)

def qMul (a b : ℚ) : ℚ := mkRat (a.num * b.num) (a.den * b.den)

/-- Division of a rational by a natural number. -/
def qDivNat (a : ℚ) (n : ℕ) : ℚ := mkRat a.num (a.den * n)

/-- The arithmetic mean of a list of rationals (`sum(l) / len(l)`). -/
def ratAvg (l : List ℚ) : ℚ := qDivNat (l.foldl qAdd 0) l.length

/-- `SequenceMatcher(None, a, b).ratio()`; `1` on two empty sequences. -/
def seqRatio (a b : List Char) : ℚ :=
  let t := a.length + b.length
  if t = 0 then 1 else mkRat (2 * (matchSum (a.length + 1) a b : ℤ)) t

/-- `AddressComparator.calculate_similarity`. -/
def calculate_similarity (str1 str2 : String) : ℚ :=
  if str1 = "" ∧ str2 = "" then 1
  else if str1 = "" ∨ str2 = "" then 0
  else seqRatio str1.data str2.data

/-! ### The comparator's tables -/

/-- `AddressComparator.abbreviations`, in Python dict insertion order. -/
def abbreviations : List (String × List String) :=
  [("rue", ["r", "rue", "r.", "r°"]),
   ("avenue", ["av", "ave", "avenue", "av.", "ave."]),
   ("boulevard", ["bd", "blvd", "boulevard", "bd.", "blvd."]),
   ("place", ["pl", "place", "pl."]),
   ("impasse", ["imp", "impasse", "imp."]),
   ("chemin", ["ch", "chemin", "ch."]),
   ("route", ["rt", "route", "rt."]),
   ("allée", ["all", "allée", "allee", "all.", "alle"]),
   ("square", ["sq", "square", "sq."]),
   ("passage", ["pass", "passage", "pass."]),
   ("cours", ["cours", "crs", "crs."]),
   ("quai", ["quai", "q", "q."]),
   ("faubourg", ["fbg", "faubourg", "fbg."]),
   ("esplanade", ["esp", "esplanade", "esp."]),
   ("lotissement", ["lot", "lotissement", "lot."]),
   ("residence", ["res", "residence", "résidence", "res."])]

/-- `AddressComparator.stop_words`. -/
def stopWords : List String :=
  ["de", "du", "des", "le", "la", "les", "et", "ou", "d", "l"]

/-- `AddressComparator.normalize_street_type`: normalize, then replace each
token by its canonical street type if it appears in the abbreviation table
(first table entry wins), and rejoin with single spaces. -/
def normalize_street_type (street : String) : String :=
  let s := normalize_string street
  let words := splitWs s.data
  let normalized := words.map fun w =>
    match abbreviations.find? (fun p => p.2.contains w) with
    | some p => p.1
    | none => w
  String.intercalate " " normalized

/-! ### Per-field comparison functions -/

/-- `AddressComparator.compare_numbers`: first digit run must be identical. -/
def compare_numbers (num1 num2 : String) : ℚ :=
  if num1 = "" ∧ num2 = "" then 1
  else if num1 = "" ∨ num2 = "" then 0
  else
    let numbers1 := extract_numbers num1
    let numbers2 := extract_numbers num2
    if numbers1 = [] ∧ numbers2 = [] then 1
    else if numbers1 = [] ∨ numbers2 = [] then 0
    else if numbers1.head? = numbers2.head? then 1 else 0

/-- `AddressComparator.compare_streets`. -/
def compare_streets (street1 street2 : String) : ℚ :=
  if street1 = "" ∧ street2 = "" then 1
  else if street1 = "" ∨ street2 = "" then 0
  else
    let norm_street1 := normalize_street_type street1
    let norm_street2 := normalize_street_type street2
    let direct_similarity := calculate_similarity norm_street1 norm_street2
    let words1 := ((splitWs norm_street1.data).dedup).filter (fun w => !stopWords.contains w)
    let words2 := ((splitWs norm_street2.data).dedup).filter (fun w => !stopWords.contains w)
    if words1 = [] ∧ words2 = [] then 1
    else if words1 = [] ∨ words2 = [] then 0
    else
      let word_similarities :=
        words1.map fun w1 => (words2.map fun w2 => calculate_similarity w1 w2).foldl max 0
      let word_similarity :=
        if word_similarities = [] then 0 else ratAvg word_similarities
      max direct_similarity word_similarity

/-- `AddressComparator.compare_postal_codes`: equality after stripping
non-digits (`re.sub(r"\D", "", code)`). -/
def compare_postal_codes (code1 code2 : String) : ℚ :=
  if code1 = "" ∧ code2 = "" then 1
  else if code1 = "" ∨ code2 = "" then 0
  else if code1.data.filter Char.isDigit = code2.data.filter Char.isDigit then 1 else 0

/-- `AddressComparator.compare_cities`: equality after full normalization. -/
def compare_cities (city1 city2 : String) : ℚ :=
  if city1 = "" ∧ city2 = "" then 1
  else if city1 = "" ∨ city2 = "" then 0
  else if normalize_string city1 = normalize_string city2 then 1 else 0

/-! ### Structured addresses and free-text address parsing -/

/-- `tools.Address`. -/
structure Address where
  numero : String
  voie : String
  code_postal : String
  ville : String
  deriving DecidableEq

/-- `[m, m-1, ..., 1]`: the candidate lengths of a greedy `+` quantifier,
longest first (backtracking order). -/
def descRange (m : Nat) : List Nat := (List.range m).reverse.map (· + 1)

/-- `[1, 2, ..., m]`: the candidate lengths of a lazy `+?` quantifier,
shortest first. -/
def ascRange (m : Nat) : List Nat := (List.range m).map (· + 1)

/-- Backtracking matcher for the anchored pattern
`^(\d+)\s+(.+?)(,?)\s+(\d{5})\s+(.+)$` (with the optional comma only when
`allowComma` is set, matching the two variants in the source). `.` is
modelled as "any character except newline"; `$` as end of input. Returns the
four capture groups, untrimmed. -/
def matchAddrPattern (allowComma : Bool) (s : List Char) :
    Option (String × String × String × String) :=
  let dmax := (s.takeWhile Char.isDigit).length
  (descRange dmax).findSome? fun k =>
    let numero : List Char := s.take k
    let rest1 := s.drop k
    (descRange (rest1.takeWhile isPySpace).length).findSome? fun m1 =>
      let rest2 := rest1.drop m1
      (ascRange rest2.length).findSome? fun len =>
        let voie := rest2.take len
        if voie.all (· ≠ '\n') then
          let rest3 := rest2.drop len
          let afterOptComma : List (List Char) :=
            if allowComma then
              match rest3 with
              | ',' :: t => [t, rest3]
              | _ => [rest3]
            else [rest3]
          afterOptComma.findSome? fun rest4 =>
            (descRange (rest4.takeWhile isPySpace).length).findSome? fun m2 =>
              let rest5 := rest4.drop m2
              let cp := rest5.take 5
              if cp.length = 5 ∧ cp.all Char.isDigit then
                let rest6 := rest5.drop 5
                (descRange (rest6.takeWhile isPySpace).length).findSome? fun m3 =>
                  let ville := rest6.drop m3
                  if ville ≠ [] ∧ ville.all (· ≠ '\n') then
                    some (⟨numero⟩, ⟨voie⟩, ⟨cp⟩, ⟨ville⟩)
                  else none
              else none
        else none

/-- `AddressComparator.parse_address_string`: the strict pattern
`^(\d+)\s+(.+?)\s+(\d{5})\s+(.+)$` on the stripped string, then the
token-scanning fallback (first 5-digit token splits street from city). -/
def parse_address_string (address_str : String) : Option Address :=
  if address_str = "" then none
  else
    let stripped := stripChars address_str.data
    match matchAddrPattern false stripped with
    | some r =>
      some ⟨r.1, ⟨stripChars r.2.1.data⟩, r.2.2.1, ⟨stripChars r.2.2.2.data⟩⟩
    | none =>
      let parts := splitWs stripped
      if parts.length ≥ 4 then
        match parts.findIdx? (fun p => p.length = 5 ∧ p.data.all Char.isDigit) with
        | some i =>
          if i > 0 then
            some ⟨parts.headI,
                  String.intercalate " " ((parts.drop 1).take (i - 1)),
                  parts.getD i "",
                  String.intercalate " " (parts.drop (i + 1))⟩
          else none
        | none => none
      else none

/-! ### `compare_addresses` -/

/-- The result dict of `AddressComparator.compare_addresses`. In the
unparsable branch the Python dict carries no `strict_fields_match` key; we
record `false` there. -/
structure CompareResult where
  is_match : Bool
  overall_similarity : ℚ
  sim_numero : ℚ
  sim_voie : ℚ
  sim_code_postal : ℚ
  sim_ville : ℚ
  strict_fields_match : Bool
  parsed_address2 : Option Address
  deriving DecidableEq

/-- `AddressComparator.compare_addresses`: parse the free text; if
unparsable, no match with all-zero scores. Otherwise compare the four
fields, form the weighted sum, require every field to clear its threshold
(numero/code_postal/ville at 1.0, voie at 0.75), and additionally force
`is_match := false` whenever one of the three strict fields is not
exactly 1.0. -/
def compare_addresses (address1 : Address) (address2 : String) : CompareResult :=
  match parse_address_string address2 with
  | none =>
    { is_match := false, overall_similarity := 0,
      sim_numero := 0, sim_voie := 0, sim_code_postal := 0, sim_ville := 0,
      strict_fields_match := false, parsed_address2 := none }
  | some parsed =>
    let sim_numero := compare_numbers address1.numero parsed.numero
    let sim_voie := compare_streets address1.voie parsed.voie
    let sim_code_postal := compare_postal_codes address1.code_postal parsed.code_postal
    let sim_ville := compare_cities address1.ville parsed.ville
    let overall :=
      qAdd (qAdd (qAdd (qMul sim_numero (mkRat 1 5)) (qMul sim_voie (mkRat 2 5)))
        (qMul sim_code_postal (mkRat 1 5))) (qMul sim_ville (mkRat 1 5))
    let base : Bool :=
      sim_numero ≥ 1 ∧ sim_voie ≥ 3 / 4 ∧ sim_code_postal ≥ 1 ∧ sim_ville ≥ 1
    let strict : Bool := sim_numero = 1 ∧ sim_code_postal = 1 ∧ sim_ville = 1
    { is_match := if strict then base else false,
      overall_similarity := overall,
      sim_numero := sim_numero, sim_voie := sim_voie,
      sim_code_postal := sim_code_postal, sim_ville := sim_ville,
      strict_fields_match := strict, parsed_address2 := some parsed }

/-- `AddressComparator.is_address_match`. -/
def is_address_match (address1 : Address) (address2 : String) : Bool :=
  (compare_addresses address1 address2).is_match

/-! ### The fusion data model (`tools.py`)

Numeric dict values that the code only tests for truthiness, converts with
`float(...)` or copies verbatim (`roof_area_m2`, `parking_area_m2`,
`building_year`, BDNB fields) are modelled as optional strings, matching the
CSV round-trip shape the fusion code actually has to cope with.
-/

structure Coords where
  latitude : Option ℚ
  longitude : Option ℚ
  deriving DecidableEq

structure Contact where
  phone : Option String
  title : Option String
  address : Option String
  deriving DecidableEq

structure Bdnb where
  annee_construction : Option String
  classe_bilan_dpe : Option String
  deriving DecidableEq

structure DataPJ where
  address : Option Address
  coords : Option Coords
  contact : Option Contact
  bdnb : Option Bdnb
  deriving DecidableEq

structure CompanyInfo where
  siren : Option String
  siret : Option String
  naf : Option String
  naf_libelle : Option String
  deriving DecidableEq

structure EntrepriseData where
  name : Option String
  category : Option String
  address : Option String
  latitude : Option ℚ
  longitude : Option ℚ
  phones : Option (List String)
  emails : Option (List String)
  websites : Option (List String)
  company_info : Option CompanyInfo
  owner_first_name : Option String
  owner_last_name : Option String
  owner_role : Option String
  building_year : Option String
  roof_area_m2 : Option String
  parking_area_m2 : Option String
  deriving DecidableEq

/-- `tools.FusedData` plus the three fields the zone filter writes
(`_distance_to_center`, `_filter_status`, `_interest_reasons`). -/
structure FusedData where
  numero : String
  voie : String
  code_postal : String
  ville : String
  latitude : Option ℚ
  longitude : Option ℚ
  pj_title : Option String
  pj_phone : Option String
  annee_construction : Option String
  classe_bilan_dpe : Option String
  entreprise_nom : Option String
  entreprise_category : Option String
  entreprise_phones : Option (List String)
  entreprise_emails : Option (List String)
  entreprise_websites : Option (List String)
  entreprise_siren : Option String
  entreprise_siret : Option String
  entreprise_naf : Option String
  owner_name : Option String
  owner_role : Option String
  roof_area_m2 : Option String
  parking_area_m2 : Option String
  building_year : Option String
  distance_to_center : Option ℤ
  filter_status : Option String
  interest_reasons : Option (List String)
  deriving DecidableEq

/-! ### Python truthiness and numeric conversion -/

/-- Truthiness of an optional string (`None` and `""` are falsy). -/
def truthyS : Option String → Bool
  | none => false
  | some s => s ≠ ""

/-- Truthiness of an optional float (`None` and `0.0` are falsy). -/
def truthyQ : Option ℚ → Bool
  | none => false
  | some q => q ≠ 0

/-- `lst and len(lst) > 0 and lst[0]`: non-empty list with truthy head. -/
def firstTruthy : List String → Bool
  | [] => false
  | p :: _ => p ≠ ""

def digitsToNat (l : List Char) : Nat :=
  l.foldl (fun a c => a * 10 + (c.toNat - 48)) 0

/-- Model of Python `float(s)` on plain decimal literals: optional
surrounding whitespace, optional sign, digits with an optional point and an
optional decimal exponent; anything else (and the exotic `inf`/`nan`/
underscore forms, absent from this data) fails. -/
def pyFloat (s : String) : Option ℚ :=
  let t := stripChars s.data
  let (neg, t) : Bool × List Char :=
    match t with
    | '-' :: r => (true, r)
    | '+' :: r => (false, r)
    | _ => (false, t)
  let intPart := t.takeWhile Char.isDigit
  let t1 := t.drop intPart.length
  let (fracPart, t2) : List Char × List Char :=
    match t1 with
    | '.' :: r => (r.takeWhile Char.isDigit, r.drop (r.takeWhile Char.isDigit).length)
    | _ => ([], t1)
  if intPart = [] ∧ fracPart = [] then none
  else
    let baseNum : ℤ := (digitsToNat intPart * 10 ^ fracPart.length + digitsToNat fracPart : ℕ)
    let num : ℤ := if neg then -baseNum else baseNum
    let den : ℕ := 10 ^ fracPart.length
    match t2 with
    | [] => some (mkRat num den)
    | 'e' :: r | 'E' :: r =>
      let (eneg, r2) : Bool × List Char :=
        match r with
        | '-' :: r2 => (true, r2)
        | '+' :: r2 => (false, r2)
        | _ => (false, r)
      let eDigits := r2.takeWhile Char.isDigit
      if eDigits ≠ [] ∧ r2.drop eDigits.length = [] then
        let e := digitsToNat eDigits
        some (if eneg then mkRat num (den * 10 ^ e) else mkRat (num * 10 ^ e) den)
      else none
    | _ => none

/-- Round half to even (the rounding of Python's `round`) of the fraction
`n / d`, written with integer arithmetic: `f = ⌊n/d⌋` and the fractional
part `r = (n - f*d)/d` is compared with `1/2` through `2*(n - f*d) ⋚ d`. -/
def roundTEint (n : ℤ) (d : ℕ) : ℤ :=
  let f := Int.fdiv n d
  let r2 := 2 * (n - f * d)
  if r2 < d then f
  else if (d : ℤ) < r2 then f + 1
  else if f % 2 = 0 then f else f + 1

/-- Round half to even on a rational. -/
def roundTE (x : ℚ) : ℤ := roundTEint x.num x.den

/-- `round(x, 4)` scaled to an integer: the coordinate-bucket component. -/
def round4i (x : ℚ) : ℤ := roundTEint (x.num * 10000) x.den

/-! ### `fusion.is_interesting_result` -/

/-- The additive interest score together with its reasons, in source order. -/
def interestScore (entry : FusedData) : Nat × List String :=
  let s : Nat × List String := (0, [])
  let ent_phones := entry.entreprise_phones.getD []
  let s := if truthyS entry.pj_phone || firstTruthy ent_phones then
      (s.1 + 2, s.2 ++ ["telephone"]) else s
  let s := if firstTruthy (entry.entreprise_emails.getD []) then
      (s.1 + 2, s.2 ++ ["email"]) else s
  let s := if firstTruthy (entry.entreprise_websites.getD []) then
      (s.1 + 1, s.2 ++ ["site_web"]) else s
  let s := if truthyS entry.entreprise_siret || truthyS entry.entreprise_siren then
      (s.1 + 2, s.2 ++ ["siret_siren"]) else s
  let s := if truthyS entry.entreprise_nom || truthyS entry.pj_title then
      (s.1 + 1, s.2 ++ ["nom_identifie"]) else s
  let s := if truthyS entry.classe_bilan_dpe then
      (s.1 + 1, s.2 ++ ["dpe"]) else s
  let s := if truthyS entry.roof_area_m2 then
      match pyFloat (entry.roof_area_m2.getD "") with
      | some v => if v ≥ 100 then (s.1 + 2, s.2 ++ ["grande_surface_toiture"]) else s
      | none => s
    else s
  let s := if truthyS entry.parking_area_m2 then
      match pyFloat (entry.parking_area_m2.getD "") with
      | some v => if v ≥ 200 then (s.1 + 1, s.2 ++ ["parking"]) else s
      | none => s
    else s
  let s := if truthyS entry.owner_name then
      (s.1 + 1, s.2 ++ ["proprietaire_identifie"]) else s
  s

/-- `fusion.is_interesting_result`: interesting iff the score reaches 3.
The `float(...)` conversions are guarded by `try/except` in the source, so a
malformed numeric field contributes nothing instead of raising; the whole
function is total. -/
def is_interesting_result (entry : FusedData) : Bool × List String :=
  let s := interestScore entry
  (s.1 ≥ 3, s.2)

/-! ### `fusion.filter_results_by_zone_and_interest`

The haversine distance (a real-valued transcendental) is abstracted as the
explicit `dist` parameter; every theorem below holds for an arbitrary
distance function, hence for the haversine.
-/

/-- The body of the classification loop for one fused record. -/
def filterStep (dist : ℚ → ℚ → ℚ → ℚ → ℚ)
    (center_lat center_lon radius_m tolerance_m : ℚ)
    (acc : List FusedData × List FusedData × List FusedData)
    (entry : FusedData) :
    List FusedData × List FusedData × List FusedData :=
  match entry.latitude, entry.longitude with
  | some lat, some lon =>
    let distance := dist center_lat center_lon lat lon
    let entry1 := { entry with distance_to_center := some (roundTE distance) }
    if distance ≤ radius_m then
      (acc.1 ++ [{ entry1 with filter_status := some "in_zone" }], acc.2.1, acc.2.2)
    else if distance ≤ tolerance_m then
      (acc.1 ++ [{ entry1 with filter_status := some "in_tolerance_zone" }], acc.2.1, acc.2.2)
    else
      let r := is_interesting_result entry1
      if r.1 then
        (acc.1,
         acc.2.1 ++ [{ entry1 with filter_status := some "out_zone_interesting",
                                   interest_reasons := some r.2 }],
         acc.2.2)
      else
        (acc.1, acc.2.1,
         acc.2.2 ++ [{ entry1 with filter_status := some "out_zone_excluded" }])
  | _, _ =>
    let r := is_interesting_result entry
    if r.1 then
      (acc.1,
       acc.2.1 ++ [{ entry with filter_status := some "no_coords_but_interesting",
                                interest_reasons := some r.2 }],
       acc.2.2)
    else
      (acc.1, acc.2.1,
       acc.2.2 ++ [{ entry with filter_status := some "no_coords_excluded" }])

def filter_results_by_zone_and_interest
    (dist : ℚ → ℚ → ℚ → ℚ → ℚ)
    (fused_data : List FusedData)
    (center_lat center_lon radius_km : ℚ) :
    List FusedData × List FusedData × List FusedData :=
  let radius_m := qMul radius_km 1000
  let tolerance_m := qMul radius_m (mkRat 6 5)
  fused_data.foldl (filterStep dist center_lat center_lon radius_m tolerance_m) ([], [], [])

/-! ### `fusion.fuse_results` -/

/-- One left-to-right non-overlapping pass of `str.replace("  ", " ")`. -/
def replaceDoubleSpace : List Char → List Char
  | ' ' :: ' ' :: rest => ' ' :: replaceDoubleSpace rest
  | c :: rest => c :: replaceDoubleSpace rest
  | [] => []

/-- `fusion._normalize_address_key`:
`address_str.lower().strip().replace(",", " ").replace("  ", " ")`. -/
def normalize_address_key (address_str : String) : String :=
  ⟨replaceDoubleSpace
    ((stripChars (address_str.data.map pyLower)).map (fun c => if c = ',' then ' ' else c))⟩

/-- `fusion._make_address_key`. -/
def make_address_key (addr : Address) : String :=
  normalize_address_key
    (addr.numero ++ " " ++ addr.voie ++ " " ++ addr.code_postal ++ " " ++ addr.ville)

/-- `fusion._parse_address_string`: the strict pattern
`^(\d+)\s+(.+?),?\s+(\d{5})\s+(.+)$` on the stripped string, no fallback. -/
def fusion_parse_address_string (address_str : String) : Option Address :=
  if address_str = "" then none
  else
    match matchAddrPattern true (stripChars address_str.data) with
    | some r =>
      some ⟨r.1, ⟨stripChars r.2.1.data⟩, r.2.2.1, ⟨stripChars r.2.2.2.data⟩⟩
    | none => none

/-- `fusion._make_owner_name`. -/
def make_owner_name (e : EntrepriseData) : Option String :=
  let parts :=
    (if truthyS e.owner_first_name then [e.owner_first_name.getD ""] else []) ++
    (if truthyS e.owner_last_name then [e.owner_last_name.getD ""] else [])
  if parts = [] then none else some (String.intercalate " " parts)

/-- A key of the `matched_ent_keys` set: either a rounded-coordinate pair or
a normalized address string (a Python tuple is never equal to a `str`, so the
heterogeneous set is a disjoint sum). -/
inductive EntKey where
  | coordK (p : ℤ × ℤ)
  | addrK (s : String)
  deriving DecidableEq

/-- The coordinate bucket of a registry record
(`(round(lat, 4), round(lon, 4))`, scaled by `10^4`). -/
def entCoordKey (e : EntrepriseData) : ℤ × ℤ :=
  (round4i (e.latitude.getD 0), round4i (e.longitude.getD 0))

/-- The coordinate bucket of a directory record's coordinates. -/
def pjCoordKey (c : Coords) : ℤ × ℤ :=
  (round4i (c.latitude.getD 0), round4i (c.longitude.getD 0))

/-- Association-list lookup; insertion conses, so the first hit is the most
recent write, i.e. Python dict assignment semantics. -/
def dictFind? {κ α : Type} [DecidableEq κ] (l : List (κ × α)) (k : κ) : Option α :=
  (l.find? (fun p => p.1 = k)).map (·.2)

/-- The two lookup indexes over the registry records
(`entreprise_by_addr`, `entreprise_by_coords`): a record is indexed by
address key when its address is truthy and by coordinate bucket when both
coordinates are truthy (so `0.0` is treated as absent). -/
def buildEntIndexes (ents : List EntrepriseData) :
    List (String × EntrepriseData) × List ((ℤ × ℤ) × EntrepriseData) :=
  ents.foldl
    (fun acc ent =>
      (if truthyS ent.address then
        (normalize_address_key (ent.address.getD ""), ent) :: acc.1
       else acc.1,
       if truthyQ ent.latitude && truthyQ ent.longitude then
        (entCoordKey ent, ent) :: acc.2
       else acc.2))
    ([], [])

/-- The base fused entry built from a directory record (lines 222–252 of
`fusion.py`). -/
def basePJEntry (pj : DataPJ) (addr : Address) : FusedData :=
  { numero := addr.numero, voie := addr.voie,
    code_postal := addr.code_postal, ville := addr.ville,
    latitude := pj.coords.bind (·.latitude),
    longitude := pj.coords.bind (·.longitude),
    pj_title := pj.contact.bind (·.title),
    pj_phone := pj.contact.bind (·.phone),
    annee_construction := pj.bdnb.bind (·.annee_construction),
    classe_bilan_dpe := pj.bdnb.bind (·.classe_bilan_dpe),
    entreprise_nom := none, entreprise_category := none,
    entreprise_phones := none, entreprise_emails := none,
    entreprise_websites := none, entreprise_siren := none,
    entreprise_siret := none, entreprise_naf := none,
    owner_name := none, owner_role := none,
    roof_area_m2 := none, parking_area_m2 := none, building_year := none,
    distance_to_center := none, filter_status := none, interest_reasons := none }

/-- The matching step for one directory record: first the coordinate bucket
(only when both its coordinates are truthy), then the address key. -/
def findEntMatch (byAddr : List (String × EntrepriseData))
    (byCoords : List ((ℤ × ℤ) × EntrepriseData))
    (pj : DataPJ) (addr : Address) : Option (EntrepriseData × EntKey) :=
  let pjc := pj.coords.getD ⟨none, none⟩
  let viaCoords :=
    if truthyQ pjc.latitude && truthyQ pjc.longitude then
      let ck := pjCoordKey pjc
      (dictFind? byCoords ck).map (fun e => (e, EntKey.coordK ck))
    else none
  match viaCoords with
  | some r => some r
  | none =>
    let ak := make_address_key addr
    (dictFind? byAddr ak).map (fun e => (e, EntKey.addrK ak))

/-- Copy the registry-only fields into a directory-derived entry (lines
274–304), filling a `None` coordinate from the registry record only when the
registry value is truthy. -/
def mergeEnt (entry : FusedData) (e : EntrepriseData) : FusedData :=
  let ci := e.company_info.getD ⟨none, none, none, none⟩
  { entry with
    entreprise_nom := e.name,
    entreprise_category := e.category,
    entreprise_phones := e.phones,
    entreprise_emails := e.emails,
    entreprise_websites := e.websites,
    entreprise_siren := ci.siren,
    entreprise_siret := ci.siret,
    entreprise_naf := if truthyS ci.naf_libelle then ci.naf_libelle else ci.naf,
    owner_name := make_owner_name e,
    owner_role := e.owner_role,
    roof_area_m2 := e.roof_area_m2,
    parking_area_m2 := e.parking_area_m2,
    building_year := e.building_year,
    latitude := if entry.latitude = none ∧ truthyQ e.latitude then e.latitude
                else entry.latitude,
    longitude := if entry.longitude = none ∧ truthyQ e.longitude then e.longitude
                 else entry.longitude }

/-- One iteration of the directory loop: skip a record without an address;
otherwise append the (possibly merged) entry and record the consumed key. -/
def pjStep (byAddr : List (String × EntrepriseData))
    (byCoords : List ((ℤ × ℤ) × EntrepriseData))
    (acc : List FusedData × List EntKey) (pj : DataPJ) :
    List FusedData × List EntKey :=
  match pj.address with
  | none => acc
  | some addr =>
    let base := basePJEntry pj addr
    match findEntMatch byAddr byCoords pj addr with
    | some r => (acc.1 ++ [mergeEnt base r.1], acc.2 ++ [r.2])
    | none => (acc.1 ++ [base], acc.2)

/-- The standalone entry synthesized for an unmatched registry record (lines
325–359): empty address fields unless the free-text address parses. -/
def standaloneEntry (e : EntrepriseData) : FusedData :=
  let base : FusedData :=
    { numero := "", voie := "", code_postal := "", ville := "",
      latitude := e.latitude, longitude := e.longitude,
      pj_title := none, pj_phone := none,
      annee_construction := none, classe_bilan_dpe := none,
      entreprise_nom := e.name,
      entreprise_category := e.category,
      entreprise_phones := e.phones,
      entreprise_emails := e.emails,
      entreprise_websites := e.websites,
      entreprise_siren := (e.company_info.getD ⟨none, none, none, none⟩).siren,
      entreprise_siret := (e.company_info.getD ⟨none, none, none, none⟩).siret,
      entreprise_naf := (e.company_info.getD ⟨none, none, none, none⟩).naf_libelle,
      owner_name := make_owner_name e,
      owner_role := e.owner_role,
      roof_area_m2 := e.roof_area_m2,
      parking_area_m2 := e.parking_area_m2,
      building_year := e.building_year,
      distance_to_center := none, filter_status := none, interest_reasons := none }
  match fusion_parse_address_string (e.address.getD "") with
  | some p =>
    { base with numero := p.numero, voie := p.voie,
                code_postal := p.code_postal, ville := p.ville }
  | none => base

/-- The guard of the standalone loop (lines 309–322): the record needs a
truthy address, and is skipped when its coordinate key (when both
coordinates are truthy) or its address key is already consumed. -/
def standaloneGuard (matched : List EntKey) (e : EntrepriseData) : Bool :=
  truthyS e.address &&
  !(truthyQ e.latitude && truthyQ e.longitude &&
    matched.contains (EntKey.coordK (entCoordKey e))) &&
  !(matched.contains (EntKey.addrK (normalize_address_key (e.address.getD ""))))

/-- `fusion.fuse_results`: index the registry records, run the directory
loop, then append one standalone entry per registry record passing the
guard, in encounter order (the Python `for`/`continue` loop is exactly this
filter-and-map since the matched-key set is not modified by it). -/
def fuse_results (pj_results : List DataPJ)
    (entreprise_results : List EntrepriseData) : List FusedData :=
  let idx := buildEntIndexes entreprise_results
  let r := pj_results.foldl (pjStep idx.1 idx.2) ([], [])
  r.1 ++ (entreprise_results.filter (standaloneGuard r.2)).map standaloneEntry

/-- The final contents of `matched_ent_keys` for a run of `fuse_results`. -/
def matchedKeys (pj_results : List DataPJ)
    (entreprise_results : List EntrepriseData) : List EntKey :=
  let idx := buildEntIndexes entreprise_results
  (pj_results.foldl (pjStep idx.1 idx.2) ([], [])).2

/-! ### Concrete records used by the end-to-end scenario and counterexamples -/

/-- The directory record of the spec's end-to-end scenario. -/
def pjScenario : DataPJ :=
  { address := some ⟨"58", "rue Alger", "81600", "Gaillac"⟩,
    coords := none,
    contact := some { phone := some "0563000000", title := none, address := none },
    bdnb := none }

/-- The registry record of the spec's end-to-end scenario. -/
def entScenario : EntrepriseData :=
  { name := some "Boulangerie X", category := none,
    address := some "58 rue d\x27Alger, 81600 Gaillac",
    latitude := some (mkRat 438985 10000), longitude := some (mkRat 19065 10000),
    phones := some ["0563000000"], emails := none, websites := none,
    company_info := some { siren := some "123456789", siret := none,
                           naf := none, naf_libelle := none },
    owner_first_name := none, owner_last_name := none, owner_role := none,
    building_year := none, roof_area_m2 := none, parking_area_m2 := none }

/-- A registry record reachable through both its coordinate bucket and its
address key. -/
def entBoth : EntrepriseData :=
  { name := some "E", category := none,
    address := some "1 rue x 81600 gaillac",
    latitude := some 1, longitude := some 2,
    phones := none, emails := none, websites := none,
    company_info := some { siren := some "111", siret := none,
                           naf := none, naf_libelle := none },
    owner_first_name := none, owner_last_name := none, owner_role := none,
    building_year := none, roof_area_m2 := none, parking_area_m2 := none }

/-- A directory record whose coordinates land in `entBoth`'s bucket. -/
def pjByCoords : DataPJ :=
  { address := some ⟨"9", "z", "1", "q"⟩,
    coords := some { latitude := some 1, longitude := some 2 },
    contact := none, bdnb := none }

/-- A directory record whose address key equals `entBoth`'s address key. -/
def pjByAddr : DataPJ :=
  { address := some ⟨"1", "rue x", "81600", "gaillac"⟩,
    coords := none, contact := none, bdnb := none }

/-- A registry record with an empty address string and no other data. -/
def entEmptyAddr : EntrepriseData :=
  { name := some "N", category := none, address := some "",
    latitude := none, longitude := none,
    phones := none, emails := none, websites := none,
    company_info := none, owner_first_name := none, owner_last_name := none,
    owner_role := none, building_year := none,
    roof_area_m2 := none, parking_area_m2 := none }

/-- A registry record with no coordinates and an unparseable non-empty
address. -/
def entUnparseable : EntrepriseData :=
  { entEmptyAddr with address := some "zzz" }

/-! ### Definitions written from the specification's words (for comparison
with the source definitions) -/

/-- The non-stop-word token set of a normalized street (as in
`compare_streets`). -/
def streetTokens (normStreet : String) : List String :=
  ((splitWs normStreet.data).dedup).filter (fun w => !stopWords.contains w)

/-- Modelled from the spec (claim C5 as literally stated): for non-empty
street strings the result is the maximum of the whole-string ratio and the
token-set average, with no further guards (an empty token average counts as
`0`); both strings empty gives `1`, exactly one empty gives `0`. -/
def compareStreetsClaim (street1 street2 : String) : ℚ :=
  if street1 = "" ∧ street2 = "" then 1
  else if street1 = "" ∨ street2 = "" then 0
  else
    let n1 := normalize_street_type street1
    let n2 := normalize_street_type street2
    let direct := calculate_similarity n1 n2
    let t1 := streetTokens n1
    let t2 := streetTokens n2
    let tokenSim :=
      if t1 = [] then 0
      else ratAvg (t1.map fun w1 => (t2.map fun w2 => calculate_similarity w1 w2).foldl max 0)
    max direct tokenSim

/-- Modelled from the spec as amended (claim C5 corrected): as
`compareStreetsClaim`, but when after normalization and stop-word removal
both token sets are empty the result is `1`, and when exactly one is empty
the result is `0`, before any maximum is taken. -/
def compareStreetsSpec (street1 street2 : String) : ℚ :=
  if street1 = "" ∧ street2 = "" then 1
  else if street1 = "" ∨ street2 = "" then 0
  else
    let n1 := normalize_street_type street1
    let n2 := normalize_street_type street2
    let t1 := streetTokens n1
    let t2 := streetTokens n2
    if t1 = [] ∧ t2 = [] then 1
    else if t1 = [] ∨ t2 = [] then 0
    else
      max (calculate_similarity n1 n2)
        (ratAvg (t1.map fun w1 => (t2.map fun w2 => calculate_similarity w1 w2).foldl max 0))

/-- Strip the three filter-assigned fields, recovering the record as it was
before classification. -/
def eraseFilterFields (e : FusedData) : FusedData :=
  { e with distance_to_center := none, filter_status := none, interest_reasons := none }

/-- A registry record whose coordinates are exactly `0.0`. -/
def entZeroCoord : EntrepriseData :=
  { entBoth with latitude := some 0, longitude := some 0 }

/-- A fused record whose area fields are present but not numeric. -/
def fusedMalformedAreas : FusedData :=
  { numero := "1", voie := "rue x", code_postal := "81600", ville := "g",
    latitude := none, longitude := none,
    pj_title := none, pj_phone := some "0600000000",
    annee_construction := none, classe_bilan_dpe := none,
    entreprise_nom := some "E", entreprise_category := none,
    entreprise_phones := none, entreprise_emails := none, entreprise_websites := none,
    entreprise_siren := none, entreprise_siret := none, entreprise_naf := none,
    owner_name := none, owner_role := none,
    roof_area_m2 := some "abc", parking_area_m2 := some "12m2",
    building_year := none,
    distance_to_center := none, filter_status := none, interest_reasons := none }

/-! ## Theorems

First the bridge lemmas for the kernel-friendly rational operations. -/

theorem qAdd_eq (a b : ℚ) : qAdd a b = a + b := by
  have ha : (a.den : ℚ) ≠ 0 := by positivity
  have hb : (b.den : ℚ) ≠ 0 := by positivity
  rw [qAdd, Rat.mkRat_eq_div]
  push_cast
  conv_rhs => rw [← Rat.num_div_den a, ← Rat.num_div_den b]
  field_simp

theorem qMul_eq (a b : ℚ) : qMul a b = a * b := by
  have ha : (a.den : ℚ) ≠ 0 := by positivity
  have hb : (b.den : ℚ) ≠ 0 := by positivity
  rw [qMul, Rat.mkRat_eq_div]
  push_cast
  conv_rhs => rw [← Rat.num_div_den a, ← Rat.num_div_den b]
  field_simp

theorem qDivNat_eq (a : ℚ) (n : ℕ) : qDivNat a n = a / n := by
  have ha : (a.den : ℚ) ≠ 0 := by positivity
  rcases Nat.eq_zero_or_pos n with h | h
  · subst h
    simp [qDivNat]
  · have hn : (n : ℚ) ≠ 0 := by positivity
    rw [qDivNat, Rat.mkRat_eq_div]
    push_cast
    conv_rhs => rw [← Rat.num_div_den a]
    field_simp

/-! Character-level lemmas for the normalization pipeline. -/

theorem toNat_charOfNat (n : ℕ) (h : n.isValidChar) : (Char.ofNat n).toNat = n := by
  simp [Char.ofNat, h, Char.ofNatAux, Char.toNat, UInt32.toNat, UInt32.ofNat',
    BitVec.toNat_ofNatLt]

/-- `pyLower` either fixes a character outside the two uppercase ranges or
shifts one inside them by 32. -/
theorem pyLower_cases (c : Char) :
    (pyLower c = c ∧ ¬(65 ≤ c.toNat ∧ c.toNat ≤ 90) ∧
      ¬(192 ≤ c.toNat ∧ c.toNat ≤ 222 ∧ c.toNat ≠ 215)) ∨
    ((pyLower c).toNat = c.toNat + 32 ∧
      (65 ≤ c.toNat ∧ c.toNat ≤ 90 ∨ (192 ≤ c.toNat ∧ c.toNat ≤ 222 ∧ c.toNat ≠ 215))) := by
  unfold pyLower
  split_ifs with h1 h2
  · exact Or.inr ⟨toNat_charOfNat _ (Or.inl (by omega)), Or.inl h1⟩
  · exact Or.inr ⟨toNat_charOfNat _ (Or.inl (by omega)), Or.inr h2⟩
  · exact Or.inl ⟨rfl, h1, h2⟩

theorem pyLower_eq_self (c : Char) (h1 : ¬(65 ≤ c.toNat ∧ c.toNat ≤ 90))
    (h2 : ¬(192 ≤ c.toNat ∧ c.toNat ≤ 222 ∧ c.toNat ≠ 215)) : pyLower c = c := by
  unfold pyLower
  rw [if_neg h1, if_neg h2]

theorem pyLower_pyLower (c : Char) : pyLower (pyLower c) = pyLower c := by
  rcases pyLower_cases c with ⟨h, -, -⟩ | ⟨ht, hr⟩
  · rw [h, h]
  · exact pyLower_eq_self (pyLower c) (by omega) (by omega)

theorem accentChar_cases (c : Char) :
    accentChar c = c ∨ accentChar c ∈ (['a', 'e', 'i', 'o', 'u', 'c', 'n'] : List Char) := by
  unfold accentChar
  split_ifs <;> simp

theorem accentChar_accentChar (c : Char) : accentChar (accentChar c) = accentChar c := by
  rcases accentChar_cases c with h | h
  · rw [h, h]
  · simp only [List.mem_cons, List.not_mem_nil, or_false] at h
    rcases h with h | h | h | h | h | h | h <;> rw [h] <;> decide

theorem pyLower_accentChar_pyLower (c : Char) :
    pyLower (accentChar (pyLower c)) = accentChar (pyLower c) := by
  rcases accentChar_cases (pyLower c) with h | h
  · rw [h]
    exact pyLower_pyLower c
  · simp only [List.mem_cons, List.not_mem_nil, or_false] at h
    rcases h with h | h | h | h | h | h | h <;> rw [h] <;> decide

theorem isPySpace_eq_false_of_isWordChar (c : Char) (h : isWordChar c = true) :
    isPySpace c = false := by
  by_contra hsp
  rw [Bool.not_eq_false] at hsp
  simp only [isPySpace, Bool.or_eq_true, decide_eq_true_eq] at hsp
  rcases hsp with (((((h' | h') | h') | h') | h') | h') <;> subst h' <;>
    exact absurd h (by decide)

theorem punctToSpace_of_isWordChar (c : Char) (h : isWordChar c = true) :
    punctToSpace c = c := by
  unfold punctToSpace
  rw [if_pos]
  simp [h]

/-! Whitespace collapsing: output shape and fixed points. -/

/-- Adjacent characters of a collapsed string are never both whitespace. -/
def NoTwoSpaces (a b : Char) : Prop := ¬(isPySpace a = true ∧ isPySpace b = true)

theorem collapseWsAux_chain (u : List Char) : ∀ b : Bool,
    List.Chain' NoTwoSpaces (collapseWsAux b u) ∧
      (b = true → ∀ c ∈ (collapseWsAux b u).head?, isPySpace c = false) := by
  induction u with
  | nil => intro b; simp [collapseWsAux]
  | cons c t ih =>
    intro b
    by_cases hc : isPySpace c
    · cases b with
      | true =>
        rw [show collapseWsAux true (c :: t) = collapseWsAux true t by
          simp [collapseWsAux, hc]]
        exact ih true
      | false =>
        rw [show collapseWsAux false (c :: t) = ' ' :: collapseWsAux true t by
          simp [collapseWsAux, hc]]
        refine ⟨List.chain'_cons'.mpr ⟨fun y hy => ?_, (ih true).1⟩, fun h => by cases h⟩
        intro hy12
        rw [(ih true).2 rfl y hy] at hy12
        exact absurd hy12.2 (by simp)
    · rw [show collapseWsAux b (c :: t) = c :: collapseWsAux false t by
        cases b <;> simp [collapseWsAux, hc]]
      refine ⟨List.chain'_cons'.mpr ⟨fun y _ => ?_, (ih false).1⟩, fun _ c' hc' => ?_⟩
      · intro hc12
        exact hc (by simpa using hc12.1)
      · simp only [List.head?_cons, Option.mem_def, Option.some.injEq] at hc'
        subst hc'
        simpa using hc

theorem collapseWsAux_mem (u : List Char) : ∀ (b : Bool) (c : Char),
    c ∈ collapseWsAux b u → c = ' ' ∨ (c ∈ u ∧ isPySpace c = false) := by
  induction u with
  | nil => intro b c h; simp [collapseWsAux] at h
  | cons d t ih =>
    intro b c h
    by_cases hd : isPySpace d
    · cases b with
      | true =>
        rw [show collapseWsAux true (d :: t) = collapseWsAux true t by
          simp [collapseWsAux, hd]] at h
        rcases ih true c h with h' | ⟨h1, h2⟩
        · exact Or.inl h'
        · exact Or.inr ⟨List.mem_cons_of_mem d h1, h2⟩
      | false =>
        rw [show collapseWsAux false (d :: t) = ' ' :: collapseWsAux true t by
          simp [collapseWsAux, hd]] at h
        rcases List.mem_cons.mp h with h' | h'
        · exact Or.inl h'
        · rcases ih true c h' with h'' | ⟨h1, h2⟩
          · exact Or.inl h''
          · exact Or.inr ⟨List.mem_cons_of_mem d h1, h2⟩
    · rw [show collapseWsAux b (d :: t) = d :: collapseWsAux false t by
        cases b <;> simp [collapseWsAux, hd]] at h
      rcases List.mem_cons.mp h with h' | h'
      · subst h'
        exact Or.inr ⟨List.mem_cons_self c t, by simpa using hd⟩
      · rcases ih false c h' with h'' | ⟨h1, h2⟩
        · exact Or.inl h''
        · exact Or.inr ⟨List.mem_cons_of_mem d h1, h2⟩

theorem collapseWsAux_eq_self (u : List Char) : ∀ b : Bool,
    (∀ c ∈ u, isPySpace c = true → c = ' ') → List.Chain' NoTwoSpaces u →
    (b = true → ∀ c ∈ u.head?, isPySpace c = false) → collapseWsAux b u = u := by
  induction u with
  | nil => intro b _ _ _; simp [collapseWsAux]
  | cons c t ih =>
    intro b hsp hch hb
    by_cases hc : isPySpace c
    · cases b with
      | true =>
        have := hb rfl c (by simp)
        rw [hc] at this
        exact absurd this (by simp)
      | false =>
        have hc' : c = ' ' := hsp c (by simp) hc
        rw [show collapseWsAux false (c :: t) = ' ' :: collapseWsAux true t by
          simp [collapseWsAux, hc]]
        have ht : collapseWsAux true t = t := by
          refine ih true (fun x hx => hsp x (List.mem_cons_of_mem c hx))
            (List.Chain'.tail hch) (fun _ y hy => ?_)
          have h2 := (List.chain'_cons'.mp hch).1 y hy
          rw [NoTwoSpaces] at h2
          by_contra hy'
          rw [Bool.not_eq_false] at hy'
          exact h2 ⟨hc, hy'⟩
        rw [ht, hc']
    · rw [show collapseWsAux b (c :: t) = c :: collapseWsAux false t by
        cases b <;> simp [collapseWsAux, hc]]
      rw [ih false (fun x hx => hsp x (List.mem_cons_of_mem c hx))
        (List.Chain'.tail hch) (fun h => by cases h)]

/-! Stripping: fixed points and contiguous-segment facts. -/

theorem stripChars_eq_self (m : List Char) (h1 : m.dropWhile isPySpace = m)
    (h2 : m.rdropWhile isPySpace = m) : stripChars m = m := by
  rw [stripChars, h1, h2]

theorem stripChars_within (m : List Char) : stripChars m <:+: m :=
  (List.rdropWhile_prefix _ _).isInfix.trans (List.dropWhile_suffix _).isInfix

theorem mem_of_mem_stripChars {m : List Char} {c : Char} (h : c ∈ stripChars m) : c ∈ m :=
  (stripChars_within m).sublist.mem h

theorem rdropWhile_stripChars (m : List Char) :
    (stripChars m).rdropWhile isPySpace = stripChars m :=
  List.rdropWhile_idempotent _ _

theorem dropWhile_stripChars (m : List Char) :
    (stripChars m).dropWhile isPySpace = stripChars m := by
  rw [List.dropWhile_eq_self_iff]
  intro hl
  obtain ⟨t, ht⟩ := List.rdropWhile_prefix isPySpace (m.dropWhile isPySpace)
  have hX : m.dropWhile isPySpace ≠ [] := by
    intro h
    have h0 : stripChars m = [] := by rw [stripChars, h]; simp
    rw [h0] at hl
    simp at hl
  have hne : stripChars m ≠ [] := by
    intro h
    rw [h] at hl
    simp at hl
  have hhead : (stripChars m).get ⟨0, hl⟩ = (m.dropWhile isPySpace).head hX := by
    have hht : stripChars m ++ t = m.dropWhile isPySpace := ht
    have h? : (stripChars m).head? = (m.dropWhile isPySpace).head? := by
      rw [← hht]
      exact (List.head?_append_of_ne_nil _ hne).symm
    rw [List.head?_eq_head hne, List.head?_eq_head hX] at h?
    rw [List.get_eq_getElem, ← List.head_eq_getElem_zero hne]
    exact Option.some.inj h?
  rw [hhead]
  simpa using List.head_dropWhile_not isPySpace m hX

/-! The canonical shape of `normalizeChars` output. -/

theorem normalizeChars_mem (l : List Char) :
    ∀ c ∈ normalizeChars l,
      c = ' ' ∨ ((∃ x, c = accentChar (pyLower x)) ∧ isWordChar c = true) := by
  intro c hc
  rw [normalizeChars] at hc
  have hc1 := mem_of_mem_stripChars hc
  rcases collapseWsAux_mem _ false c hc1 with h | ⟨hmem, hnsp⟩
  · exact Or.inl h
  · rcases List.mem_map.mp hmem with ⟨y, hy, hyc⟩
    rcases List.mem_map.mp (mem_of_mem_stripChars hy) with ⟨x, -, hxy⟩
    subst hxy
    rw [punctToSpace] at hyc
    by_cases hk : (isWordChar (accentChar (pyLower x)) || isPySpace (accentChar (pyLower x))) = true
    · rw [if_pos hk] at hyc
      subst hyc
      rcases Bool.or_eq_true _ _ |>.mp hk with hw | hs
      · exact Or.inr ⟨⟨x, rfl⟩, hw⟩
      · rw [hs] at hnsp
        cases hnsp
    · rw [if_neg hk] at hyc
      exact Or.inl hyc.symm

theorem normalizeChars_char_fixed (l : List Char) :
    ∀ c ∈ normalizeChars l,
      pyLower c = c ∧ accentChar c = c ∧ punctToSpace c = c ∧
        (isPySpace c = true → c = ' ') := by
  intro c hc
  rcases normalizeChars_mem l c hc with h | ⟨⟨x, hx⟩, hw⟩
  · subst h
    exact ⟨by decide, by decide, by decide, fun _ => rfl⟩
  · subst hx
    refine ⟨pyLower_accentChar_pyLower x, accentChar_accentChar (pyLower x),
      punctToSpace_of_isWordChar _ hw, fun hs => ?_⟩
    rw [isPySpace_eq_false_of_isWordChar _ hw] at hs
    cases hs

theorem normalizeChars_chain (l : List Char) :
    List.Chain' NoTwoSpaces (normalizeChars l) :=
  List.Chain'.infix ((collapseWsAux_chain _ false).1) (stripChars_within _)

theorem normalizeChars_dropWhile (l : List Char) :
    (normalizeChars l).dropWhile isPySpace = normalizeChars l :=
  dropWhile_stripChars _

theorem normalizeChars_rdropWhile (l : List Char) :
    (normalizeChars l).rdropWhile isPySpace = normalizeChars l :=
  rdropWhile_stripChars _

theorem normalizeChars_idem (l : List Char) :
    normalizeChars (normalizeChars l) = normalizeChars l := by
  have hfix := normalizeChars_char_fixed l
  have h1 : (normalizeChars l).map pyLower = normalizeChars l := by
    rw [List.map_congr_left (fun c hc => (hfix c hc).1)]
    exact List.map_id _
  have h2 : stripChars (normalizeChars l) = normalizeChars l :=
    stripChars_eq_self _ (normalizeChars_dropWhile l) (normalizeChars_rdropWhile l)
  have h3 : (normalizeChars l).map (fun c => punctToSpace (accentChar c)) =
      normalizeChars l := by
    rw [List.map_congr_left (fun c hc => by
      rw [(hfix c hc).2.1, (hfix c hc).2.2.1])]
    exact List.map_id _
  have h4 : collapseWs (normalizeChars l) = normalizeChars l :=
    collapseWsAux_eq_self _ false (fun c hc => (hfix c hc).2.2.2)
      (normalizeChars_chain l) (fun h => by cases h)
  conv_lhs => rw [normalizeChars, h1, h2, h3]
  rw [collapseWs] at h4
  rw [collapseWs, h4, h2]

/-! ## Claim theorems -/

/-- C7: text normalization is idempotent — for every string `s`,
`normalize_string (normalize_string s) = normalize_string s`. -/
theorem c7_normalize_idempotent (s : String) :
    normalize_string (normalize_string s) = normalize_string s := by
  unfold normalize_string
  exact congrArg String.mk (normalizeChars_idem s.data)

/-- C5 (as amended): `compare_streets` equals the spec-side description once
the token-set guards are added — for non-empty streets whose normalized
non-stop-word token sets are both non-empty it is the maximum of the
whole-string ratio and the averaged best token matches; both token sets
empty gives 1, exactly one empty gives 0, and the string-level empty cases
behave likewise. -/
theorem c5_compare_streets_spec (street1 street2 : String) :
    compare_streets street1 street2 = compareStreetsSpec street1 street2 := by
  rw [compare_streets, compareStreetsSpec]
  by_cases h1 : street1 = "" ∧ street2 = ""
  · rw [if_pos h1, if_pos h1]
  · rw [if_neg h1, if_neg h1]
    by_cases h2 : street1 = "" ∨ street2 = ""
    · rw [if_pos h2, if_pos h2]
    · rw [if_neg h2, if_neg h2]
      show _ = (if streetTokens (normalize_street_type street1) = [] ∧
          streetTokens (normalize_street_type street2) = [] then (1 : ℚ) else _)
      rw [streetTokens, streetTokens]
      by_cases h3 : ((splitWs (normalize_street_type street1).data).dedup).filter
            (fun w => !stopWords.contains w) = [] ∧
          ((splitWs (normalize_street_type street2).data).dedup).filter
            (fun w => !stopWords.contains w) = []
      · rw [if_pos h3, if_pos h3]
      · rw [if_neg h3, if_neg h3]
        by_cases h4 : ((splitWs (normalize_street_type street1).data).dedup).filter
              (fun w => !stopWords.contains w) = [] ∨
            ((splitWs (normalize_street_type street2).data).dedup).filter
              (fun w => !stopWords.contains w) = []
        · rw [if_pos h4, if_pos h4]
        · rw [if_neg h4, if_neg h4]
          simp only []
          rw [if_neg]
          rw [List.map_eq_nil_iff]
          intro h
          exact h4 (Or.inl h)

/-- C5 counterexample: for the non-empty streets `"de"` and `"rue x"` the
code returns `0`, not the claimed maximum, which is `2/7` (the whole-string
ratio) because the first street normalizes to a lone stop word. -/
theorem c5_counterexample :
    compare_streets "de" "rue x" = 0 ∧
    compareStreetsClaim "de" "rue x" = mkRat 2 7 ∧
    ¬ compare_streets "de" "rue x" = compareStreetsClaim "de" "rue x" :=
  ⟨by decide, by decide, by decide⟩

/-- C4: if any of the three strict per-field comparisons
(`compare_numbers`, `compare_postal_codes`, `compare_cities`) scores `0.0`
on the structured address versus the parsed free text, then
`compare_addresses` reports no match, whatever the street score. -/
theorem c4_strict_field_veto (address1 : Address) (address2 : String) (p : Address)
    (hp : parse_address_string address2 = some p)
    (h : compare_numbers address1.numero p.numero = 0 ∨
         compare_postal_codes address1.code_postal p.code_postal = 0 ∨
         compare_cities address1.ville p.ville = 0) :
    (compare_addresses address1 address2).is_match = false := by
  unfold compare_addresses
  rw [hp]
  rcases h with h | h | h <;> simp [h]

set_option maxRecDepth 4000 in
/-- Witness for C4 at a concrete mismatching postal code. -/
theorem c4_strict_field_veto_witness :
    parse_address_string "1 rue x 75000 gaillac" =
      some ⟨"1", "rue x", "75000", "gaillac"⟩ ∧
    compare_postal_codes "81600" "75000" = 0 ∧
    (compare_addresses ⟨"1", "rue x", "81600", "gaillac"⟩
      "1 rue x 75000 gaillac").is_match = false :=
  ⟨by decide, by decide,
    c4_strict_field_veto ⟨"1", "rue x", "81600", "gaillac"⟩ "1 rue x 75000 gaillac"
      ⟨"1", "rue x", "75000", "gaillac"⟩ (by decide) (Or.inr (Or.inl (by decide)))⟩

/-- C1 counterexample: on the spec's end-to-end scenario the two normalized
address keys differ (the registry key keeps the apostrophe), so `fuse_results`
returns two records, not one, and no single record carries both the directory
phone and the registry SIREN. -/
theorem c1_counterexample :
    (fuse_results [pjScenario] [entScenario]).length = 2 ∧
    (fuse_results [pjScenario] [entScenario]).map
        (fun r => (r.pj_phone, r.entreprise_siren)) =
      [(some "0563000000", none), (none, some "123456789")] := by
  constructor <;> decide

/-- C1 (as amended): the directory key is `"58 rue alger 81600 gaillac"` and
the registry key `"58 rue d'alger 81600 gaillac"` (no stop-word or type
normalization is applied), so no match occurs: the directory-derived record
keeps the phone (interest score 2, not interesting) and the registry record
is re-emitted standalone with its parsed address fields, the SIREN and
coordinates (interest score 5, interesting). -/
theorem c1_amended :
    make_address_key ⟨"58", "rue Alger", "81600", "Gaillac"⟩ =
      "58 rue alger 81600 gaillac" ∧
    normalize_address_key "58 rue d\x27Alger, 81600 Gaillac" =
      "58 rue d\x27alger 81600 gaillac" ∧
    (fuse_results [pjScenario] [entScenario]).map
        (fun r => (r.numero, r.voie, r.code_postal, r.ville)) =
      [("58", "rue Alger", "81600", "Gaillac"),
       ("58", "rue d\x27Alger", "81600", "Gaillac")] ∧
    (fuse_results [pjScenario] [entScenario]).map
        (fun r => (r.pj_phone, r.entreprise_siren)) =
      [(some "0563000000", none), (none, some "123456789")] ∧
    (fuse_results [pjScenario] [entScenario]).map
        (fun r => ((is_interesting_result r).1, (interestScore r).1)) =
      [(false, 2), (true, 5)] ∧
    (fuse_results [pjScenario] [entScenario]).map (fun r => r.latitude) =
      [none, some (mkRat 438985 10000)] := by
  refine ⟨by decide, by decide, by decide, by decide, by decide, by decide⟩

/-- C3 counterexample: a registry record with no coordinates and an *empty*
address string is dropped entirely by `fuse_results`, not emitted. -/
theorem c3_counterexample :
    entEmptyAddr.latitude = none ∧ entEmptyAddr.longitude = none ∧
    entEmptyAddr.address = some "" ∧
    fuse_results [] [entEmptyAddr] = [] := by
  refine ⟨rfl, rfl, rfl, by decide⟩

/-- C3 (as amended): a registry record with a non-empty but unparseable
free-text address is still emitted as a standalone record with the four
structured address fields left empty (shown here on a fusion run with no
directory records, which is the case in which the record cannot instead be
consumed by a match); an empty or absent address is dropped instead. -/
theorem c3_amended (ent : EntrepriseData) (a : String) (ha : ent.address = some a)
    (hne : a ≠ "") (hp : fusion_parse_address_string a = none) :
    fuse_results [] [ent] = [standaloneEntry ent] ∧
    (standaloneEntry ent).numero = "" ∧ (standaloneEntry ent).voie = "" ∧
    (standaloneEntry ent).code_postal = "" ∧ (standaloneEntry ent).ville = "" := by
  have hbase : (standaloneEntry ent).numero = "" ∧ (standaloneEntry ent).voie = "" ∧
      (standaloneEntry ent).code_postal = "" ∧ (standaloneEntry ent).ville = "" := by
    unfold standaloneEntry
    rw [ha, Option.getD_some, hp]
    exact ⟨rfl, rfl, rfl, rfl⟩
  refine ⟨?_, hbase⟩
  unfold fuse_results
  have hg : standaloneGuard [] ent = true := by
    unfold standaloneGuard
    rw [ha]
    simp [truthyS, hne]
  simp [hg]

/-- Witness for C3 as amended, at the concrete unparseable address `"zzz"`. -/
theorem c3_amended_witness :
    fuse_results [] [entUnparseable] = [standaloneEntry entUnparseable] ∧
    (standaloneEntry entUnparseable).numero = "" ∧
    (standaloneEntry entUnparseable).voie = "" ∧
    (standaloneEntry entUnparseable).code_postal = "" ∧
    (standaloneEntry entUnparseable).ville = "" :=
  c3_amended entUnparseable "zzz" rfl (by decide) (by decide)

/-- C8: `is_interesting_result` is total, and a present-but-unparseable
numeric area awards no points: replacing such a field by `None` does not
change the result (the roof signal would otherwise add 2 points at ≥ 100,
the parking signal 1 point at ≥ 200). -/
theorem c8_malformed_areas (e : FusedData) :
    (∀ s, e.roof_area_m2 = some s → pyFloat s = none →
      is_interesting_result e = is_interesting_result { e with roof_area_m2 := none }) ∧
    (∀ s, e.parking_area_m2 = some s → pyFloat s = none →
      is_interesting_result e = is_interesting_result { e with parking_area_m2 := none }) := by
  constructor <;>
    · intro s ha hp
      by_cases hs : s = "" <;>
        simp [is_interesting_result, interestScore, ha, hp, truthyS, hs]

/-- Witness for C8 on a record with two malformed area fields. -/
theorem c8_malformed_areas_witness :
    pyFloat "abc" = none ∧ pyFloat "12m2" = none ∧
    is_interesting_result fusedMalformedAreas =
      is_interesting_result { fusedMalformedAreas with roof_area_m2 := none } ∧
    is_interesting_result fusedMalformedAreas =
      is_interesting_result { fusedMalformedAreas with parking_area_m2 := none } :=
  ⟨by decide, by decide,
    (c8_malformed_areas fusedMalformedAreas).1 "abc" rfl (by decide),
    (c8_malformed_areas fusedMalformedAreas).2 "12m2" rfl (by decide)⟩

/-! Classification: each record is routed to exactly one of the three lists. -/

theorem filterStep_cases (dist : ℚ → ℚ → ℚ → ℚ → ℚ) (c1 c2 rm tm : ℚ)
    (acc : List FusedData × List FusedData × List FusedData) (e : FusedData) :
    ∃ x : FusedData,
      (filterStep dist c1 c2 rm tm acc e = (acc.1 ++ [x], acc.2.1, acc.2.2) ∨
       filterStep dist c1 c2 rm tm acc e = (acc.1, acc.2.1 ++ [x], acc.2.2) ∨
       filterStep dist c1 c2 rm tm acc e = (acc.1, acc.2.1, acc.2.2 ++ [x])) ∧
      eraseFilterFields x = eraseFilterFields e := by
  unfold filterStep
  rcases hlat : e.latitude with _ | lat <;> rcases hlon : e.longitude with _ | lon <;>
    simp only [] <;> split_ifs <;>
    first
      | exact ⟨_, Or.inl rfl, by simp [eraseFilterFields, hlat, hlon]⟩
      | exact ⟨_, Or.inr (Or.inl rfl), by simp [eraseFilterFields, hlat, hlon]⟩
      | exact ⟨_, Or.inr (Or.inr rfl), by simp [eraseFilterFields, hlat, hlon]⟩

theorem filter_foldl_partition (dist : ℚ → ℚ → ℚ → ℚ → ℚ) (c1 c2 rm tm : ℚ)
    (l : List FusedData) :
    ∀ a b c : List FusedData,
      ((l.foldl (filterStep dist c1 c2 rm tm) (a, b, c)).1.length +
        (l.foldl (filterStep dist c1 c2 rm tm) (a, b, c)).2.1.length +
        (l.foldl (filterStep dist c1 c2 rm tm) (a, b, c)).2.2.length =
          a.length + b.length + c.length + l.length) ∧
      (∀ e : FusedData,
        ((l.foldl (filterStep dist c1 c2 rm tm) (a, b, c)).1.map eraseFilterFields).count e +
        ((l.foldl (filterStep dist c1 c2 rm tm) (a, b, c)).2.1.map eraseFilterFields).count e +
        ((l.foldl (filterStep dist c1 c2 rm tm) (a, b, c)).2.2.map eraseFilterFields).count e =
          (a.map eraseFilterFields).count e + (b.map eraseFilterFields).count e +
          (c.map eraseFilterFields).count e + (l.map eraseFilterFields).count e) := by
  induction l with
  | nil => intro a b c; simp
  | cons d t ih =>
    intro a b c
    obtain ⟨x, hcase, hx⟩ := filterStep_cases dist c1 c2 rm tm (a, b, c) d
    rcases hcase with h | h | h
    · rw [List.foldl_cons, h]
      obtain ⟨ihl, ihc⟩ := ih (a ++ [x]) b c
      refine ⟨?_, fun e => ?_⟩
      · simp only [List.length_append, List.length_cons, List.length_nil] at ihl ⊢
        omega
      · have ihe := ihc e
        simp only [List.map_append, List.map_cons, List.map_nil, List.count_append,
          List.count_cons, List.count_nil, hx] at ihe ⊢
        omega
    · rw [List.foldl_cons, h]
      obtain ⟨ihl, ihc⟩ := ih a (b ++ [x]) c
      refine ⟨?_, fun e => ?_⟩
      · simp only [List.length_append, List.length_cons, List.length_nil] at ihl ⊢
        omega
      · have ihe := ihc e
        simp only [List.map_append, List.map_cons, List.map_nil, List.count_append,
          List.count_cons, List.count_nil, hx] at ihe ⊢
        omega
    · rw [List.foldl_cons, h]
      obtain ⟨ihl, ihc⟩ := ih a b (c ++ [x])
      refine ⟨?_, fun e => ?_⟩
      · simp only [List.length_append, List.length_cons, List.length_nil] at ihl ⊢
        omega
      · have ihe := ihc e
        simp only [List.map_append, List.map_cons, List.map_nil, List.count_append,
          List.count_cons, List.count_nil, hx] at ihe ⊢
        omega

/-- C9: classification partitions its input — the three output lists'
lengths sum to the input length, and, after erasing the three
filter-assigned fields, every record occurs in the concatenated outputs
exactly as often as in the input: nothing is dropped or duplicated. -/
theorem c9_classification_partition (dist : ℚ → ℚ → ℚ → ℚ → ℚ)
    (l : List FusedData) (center_lat center_lon radius_km : ℚ) :
    ((filter_results_by_zone_and_interest dist l center_lat center_lon radius_km).1.length +
      (filter_results_by_zone_and_interest dist l center_lat center_lon radius_km).2.1.length +
      (filter_results_by_zone_and_interest dist l center_lat center_lon radius_km).2.2.length =
        l.length) ∧
    (∀ e : FusedData,
      ((filter_results_by_zone_and_interest dist l center_lat center_lon
          radius_km).1.map eraseFilterFields).count e +
      ((filter_results_by_zone_and_interest dist l center_lat center_lon
          radius_km).2.1.map eraseFilterFields).count e +
      ((filter_results_by_zone_and_interest dist l center_lat center_lon
          radius_km).2.2.map eraseFilterFields).count e =
        (l.map eraseFilterFields).count e) := by
  unfold filter_results_by_zone_and_interest
  obtain ⟨hl, hc⟩ := filter_foldl_partition dist center_lat center_lon
    (qMul radius_km 1000) (qMul (qMul radius_km 1000) (mkRat 6 5)) l [] [] []
  exact ⟨by simpa using hl, fun e => by simpa using hc e⟩

/-- C6: the zone filter classifies by exact thresholds. For a record with
coordinates: distance at most `radius_km * 1000` puts it in the in-zone list
with status `in_zone`; a distance strictly above that but at most
`radius_km * 1000 * (6/5)` (the 20% tolerance) keeps it in the in-zone list
with status `in_tolerance_zone`; strictly above the tolerance it is kept as
`out_zone_interesting` exactly when `is_interesting_result` holds and
otherwise excluded as `out_zone_excluded`. A record without coordinates is
routed by `is_interesting_result` alone to `no_coords_but_interesting` or
`no_coords_excluded`. Stated on a one-record run; the classification of each
record is independent of the others. -/
theorem c6_zone_thresholds (dist : ℚ → ℚ → ℚ → ℚ → ℚ)
    (center_lat center_lon radius_km : ℚ) (hr : 0 ≤ radius_km) (entry : FusedData) :
    (∀ lat lon, entry.latitude = some lat → entry.longitude = some lon →
      ((dist center_lat center_lon lat lon ≤ radius_km * 1000 →
        filter_results_by_zone_and_interest dist [entry] center_lat center_lon radius_km =
          ([{ entry with
                distance_to_center := some (roundTE (dist center_lat center_lon lat lon)),
                filter_status := some "in_zone" }], [], [])) ∧
       (radius_km * 1000 < dist center_lat center_lon lat lon →
        dist center_lat center_lon lat lon ≤ radius_km * 1000 * (6 / 5) →
        filter_results_by_zone_and_interest dist [entry] center_lat center_lon radius_km =
          ([{ entry with
                distance_to_center := some (roundTE (dist center_lat center_lon lat lon)),
                filter_status := some "in_tolerance_zone" }], [], [])) ∧
       (radius_km * 1000 * (6 / 5) < dist center_lat center_lon lat lon →
        filter_results_by_zone_and_interest dist [entry] center_lat center_lon radius_km =
          (if (is_interesting_result { entry with
                distance_to_center := some (roundTE (dist center_lat center_lon lat lon)) }).1
           then
            ([], [{ entry with
                      distance_to_center :=
                        some (roundTE (dist center_lat center_lon lat lon)),
                      filter_status := some "out_zone_interesting",
                      interest_reasons :=
                        some (is_interesting_result { entry with
                          distance_to_center :=
                            some (roundTE (dist center_lat center_lon lat lon)) }).2 }], [])
           else
            ([], [], [{ entry with
                          distance_to_center :=
                            some (roundTE (dist center_lat center_lon lat lon)),
                          filter_status := some "out_zone_excluded" }]))))) ∧
    ((entry.latitude = none ∨ entry.longitude = none) →
      filter_results_by_zone_and_interest dist [entry] center_lat center_lon radius_km =
        (if (is_interesting_result entry).1 then
          ([], [{ entry with filter_status := some "no_coords_but_interesting",
                             interest_reasons := some (is_interesting_result entry).2 }], [])
         else
          ([], [], [{ entry with filter_status := some "no_coords_excluded" }]))) := by
  have htm : qMul (qMul radius_km 1000) (mkRat 6 5) = radius_km * 1000 * (6 / 5) := by
    rw [qMul_eq, qMul_eq]
    norm_num [Rat.mkRat_eq_div]
  have hrm : qMul radius_km 1000 = radius_km * 1000 := qMul_eq _ _
  have hle : radius_km * 1000 ≤ radius_km * 1000 * (6 / 5) :=
    le_mul_of_one_le_right (by positivity) (by norm_num)
  constructor
  · intro lat lon hlat hlon
    refine ⟨fun h1 => ?_, fun h1 h2 => ?_, fun h1 => ?_⟩
    · unfold filter_results_by_zone_and_interest filterStep
      rw [List.foldl_cons, List.foldl_nil, hlat, hlon]
      simp only []
      rw [htm, hrm, if_pos h1]
      simp only [List.nil_append]
    · unfold filter_results_by_zone_and_interest filterStep
      rw [List.foldl_cons, List.foldl_nil, hlat, hlon]
      simp only []
      rw [htm, hrm, if_neg (not_le.mpr h1), if_pos h2]
      simp only [List.nil_append]
    · unfold filter_results_by_zone_and_interest filterStep
      rw [List.foldl_cons, List.foldl_nil, hlat, hlon]
      simp only []
      rw [htm, hrm, if_neg (not_le.mpr (lt_of_le_of_lt hle h1)), if_neg (not_le.mpr h1)]
      simp only [List.nil_append]
  · intro hno
    unfold filter_results_by_zone_and_interest filterStep
    rw [List.foldl_cons, List.foldl_nil]
    rcases hno with h | h
    · rw [h]
      rcases hlon : entry.longitude with _ | lon <;> simp only [] <;> split_ifs <;>
        simp only [List.nil_append]
    · rw [h]
      rcases hlat : entry.latitude with _ | lat <;> simp only [] <;> split_ifs <;>
        simp only [List.nil_append]

/-! Fusion: zero coordinates behave as absent. -/

theorem buildEntIndexes_coord_inv (ents : List EntrepriseData) :
    ∀ p ∈ (buildEntIndexes ents).2,
      truthyQ p.2.latitude = true ∧ truthyQ p.2.longitude = true ∧ p.1 = entCoordKey p.2 := by
  suffices h : ∀ (acc : List (String × EntrepriseData) × List ((ℤ × ℤ) × EntrepriseData)),
      (∀ p ∈ acc.2, truthyQ p.2.latitude = true ∧ truthyQ p.2.longitude = true ∧
        p.1 = entCoordKey p.2) →
      ∀ p ∈ (ents.foldl (fun acc ent =>
          (if truthyS ent.address then
            (normalize_address_key (ent.address.getD ""), ent) :: acc.1
           else acc.1,
           if truthyQ ent.latitude && truthyQ ent.longitude then
            (entCoordKey ent, ent) :: acc.2
           else acc.2)) acc).2,
        truthyQ p.2.latitude = true ∧ truthyQ p.2.longitude = true ∧ p.1 = entCoordKey p.2 by
    exact h ([], []) (fun p hp => absurd hp (List.not_mem_nil p))
  induction ents with
  | nil => intro acc hacc p hp; exact hacc p hp
  | cons d t ih =>
    intro acc hacc p hp
    rw [List.foldl_cons] at hp
    refine ih _ ?_ p hp
    intro q hq
    by_cases hd : (truthyQ d.latitude && truthyQ d.longitude) = true
    · simp only [hd, if_true] at hq
      rcases List.mem_cons.mp (by
          by_cases ha : truthyS d.address = true <;> simpa [ha] using hq) with h | h
      · subst h
        exact ⟨(Bool.and_eq_true _ _ |>.mp hd).1, (Bool.and_eq_true _ _ |>.mp hd).2, rfl⟩
      · exact hacc q h
    · rw [Bool.not_eq_true] at hd
      refine hacc q (by by_cases ha : truthyS d.address = true <;> simpa [ha, hd] using hq)

theorem buildEntIndexes_addr_inv (ents : List EntrepriseData) :
    ∀ p ∈ (buildEntIndexes ents).1,
      truthyS p.2.address = true ∧ p.1 = normalize_address_key (p.2.address.getD "") := by
  suffices h : ∀ (acc : List (String × EntrepriseData) × List ((ℤ × ℤ) × EntrepriseData)),
      (∀ p ∈ acc.1, truthyS p.2.address = true ∧
        p.1 = normalize_address_key (p.2.address.getD "")) →
      ∀ p ∈ (ents.foldl (fun acc ent =>
          (if truthyS ent.address then
            (normalize_address_key (ent.address.getD ""), ent) :: acc.1
           else acc.1,
           if truthyQ ent.latitude && truthyQ ent.longitude then
            (entCoordKey ent, ent) :: acc.2
           else acc.2)) acc).1,
        truthyS p.2.address = true ∧ p.1 = normalize_address_key (p.2.address.getD "") by
    exact h ([], []) (fun p hp => absurd hp (List.not_mem_nil p))
  induction ents with
  | nil => intro acc hacc p hp; exact hacc p hp
  | cons d t ih =>
    intro acc hacc p hp
    rw [List.foldl_cons] at hp
    refine ih _ ?_ p hp
    intro q hq
    by_cases ha : truthyS d.address = true
    · simp only [ha, if_true] at hq
      rcases List.mem_cons.mp (by
          by_cases hd : (truthyQ d.latitude && truthyQ d.longitude) = true <;>
            simpa [hd] using hq) with h | h
      · subst h
        exact ⟨ha, rfl⟩
      · exact hacc q h
    · rw [Bool.not_eq_true] at ha
      refine hacc q (by
        by_cases hd : (truthyQ d.latitude && truthyQ d.longitude) = true <;>
          simpa [ha, hd] using hq)

theorem dictFind?_mem {κ α : Type} [DecidableEq κ] {l : List (κ × α)} {k : κ} {v : α}
    (h : dictFind? l k = some v) : (k, v) ∈ l := by
  unfold dictFind? at h
  rcases hf : l.find? (fun p => p.1 = k) with _ | p
  · rw [hf] at h
    cases h
  · rw [hf] at h
    have h4 : p.2 = v := Option.some.inj h
    have h3 : p.1 = k := by simpa using List.find?_some hf
    have h2 := List.mem_of_find?_eq_some hf
    rw [← h4, ← h3]
    exact h2

/-- C10: a coordinate value of exactly `0.0` is treated as absent throughout
fusion. First conjunct: every record indexed by coordinate bucket has truthy
(non-zero, non-absent) coordinates, so a registry record with a `0.0`
latitude or longitude is never entered in the coordinate index. Second
conjunct: a directory record with a `0.0` coordinate never attempts
coordinate matching and falls through to the address-key lookup. Third
conjunct: a registry `0.0` latitude or longitude is never copied into a
merged record's missing coordinate. -/
theorem c10_zero_coordinates_absent :
    (∀ (ents : List EntrepriseData) (e : EntrepriseData) (k : ℤ × ℤ),
      e.latitude = some 0 ∨ e.longitude = some 0 →
      (k, e) ∉ (buildEntIndexes ents).2) ∧
    (∀ (byA : List (String × EntrepriseData)) (byC : List ((ℤ × ℤ) × EntrepriseData))
       (pj : DataPJ) (addr : Address) (c : Coords),
      pj.coords = some c → c.latitude = some 0 ∨ c.longitude = some 0 →
      findEntMatch byA byC pj addr =
        (dictFind? byA (make_address_key addr)).map
          (fun e => (e, EntKey.addrK (make_address_key addr)))) ∧
    (∀ (entry : FusedData) (e : EntrepriseData),
      (entry.latitude = none → e.latitude = some 0 → (mergeEnt entry e).latitude = none) ∧
      (entry.longitude = none → e.longitude = some 0 →
        (mergeEnt entry e).longitude = none)) := by
  refine ⟨?_, ?_, ?_⟩
  · intro ents e k h hmem
    obtain ⟨h1, h2, -⟩ := buildEntIndexes_coord_inv ents (k, e) hmem
    rcases h with h | h
    · rw [h] at h1
      exact absurd h1 (by decide)
    · rw [h] at h2
      exact absurd h2 (by decide)
  · intro byA byC pj addr c hc h
    rcases h with h | h <;> simp [findEntMatch, hc, truthyQ, h]
  · intro entry e
    constructor
    · intro h1 h2
      unfold mergeEnt
      simp [h1, h2, truthyQ]
    · intro h1 h2
      unfold mergeEnt
      simp [h1, h2, truthyQ]

/-- Witness for C10 at concrete records: the zero-coordinate registry record
is absent from the coordinate index built over it, a directory record with a
`0.0` latitude matches only through the address key, and a `0.0` registry
latitude is not copied into a merged record missing one. -/
theorem c10_zero_coordinates_absent_witness :
    ((10000, 20000), entZeroCoord) ∉ (buildEntIndexes [entZeroCoord]).2 ∧
    findEntMatch [] [] { pjByCoords with
        coords := some { latitude := some 0, longitude := some 2 } }
        ⟨"9", "z", "1", "q"⟩ =
      (dictFind? ([] : List (String × EntrepriseData))
        (make_address_key ⟨"9", "z", "1", "q"⟩)).map
          (fun e => (e, EntKey.addrK (make_address_key ⟨"9", "z", "1", "q"⟩))) ∧
    (mergeEnt fusedMalformedAreas entZeroCoord).latitude = none :=
  ⟨c10_zero_coordinates_absent.1 [entZeroCoord] entZeroCoord (10000, 20000) (Or.inl rfl),
   c10_zero_coordinates_absent.2.1 [] [] _ ⟨"9", "z", "1", "q"⟩
     { latitude := some 0, longitude := some 2 } rfl (Or.inl rfl),
   (c10_zero_coordinates_absent.2.2 fusedMalformedAreas entZeroCoord).1 rfl rfl⟩

/-! Fusion: consumption accounting. -/

theorem pjStep_fst_len (byA : List (String × EntrepriseData))
    (byC : List ((ℤ × ℤ) × EntrepriseData))
    (acc : List FusedData × List EntKey) (pj : DataPJ) :
    (pjStep byA byC acc pj).1.length ≤ acc.1.length + 1 := by
  unfold pjStep
  split
  · exact Nat.le_succ _
  · split <;> simp

theorem pjLoop_fst_len (byA : List (String × EntrepriseData))
    (byC : List ((ℤ × ℤ) × EntrepriseData)) (pjs : List DataPJ) :
    ∀ acc : List FusedData × List EntKey,
      ((pjs.foldl (pjStep byA byC) acc).1).length ≤ acc.1.length + pjs.length := by
  induction pjs with
  | nil => intro acc; simp
  | cons d t ih =>
    intro acc
    rw [List.foldl_cons]
    have h1 := ih (pjStep byA byC acc d)
    have h2 := pjStep_fst_len byA byC acc d
    simp only [List.length_cons]
    omega

theorem pjStep_snd_sub (byA : List (String × EntrepriseData))
    (byC : List ((ℤ × ℤ) × EntrepriseData))
    (acc : List FusedData × List EntKey) (pj : DataPJ) :
    ∀ k ∈ acc.2, k ∈ (pjStep byA byC acc pj).2 := by
  unfold pjStep
  split
  · exact fun k hk => hk
  · split <;> intro k hk <;> simp only [] <;>
      first
        | exact List.mem_append_left _ hk
        | exact hk

theorem pjLoop_snd_sub (byA : List (String × EntrepriseData))
    (byC : List ((ℤ × ℤ) × EntrepriseData)) (pjs : List DataPJ) :
    ∀ (acc : List FusedData × List EntKey) (k : EntKey),
      k ∈ acc.2 → k ∈ (pjs.foldl (pjStep byA byC) acc).2 := by
  induction pjs with
  | nil => intro acc k hk; exact hk
  | cons d t ih =>
    intro acc k hk
    rw [List.foldl_cons]
    exact ih _ k (pjStep_snd_sub byA byC acc d k hk)

theorem pjLoop_matched (byA : List (String × EntrepriseData))
    (byC : List ((ℤ × ℤ) × EntrepriseData)) (pjs : List DataPJ) :
    ∀ (acc : List FusedData × List EntKey) (pj : DataPJ) (addr : Address)
      (e : EntrepriseData) (k : EntKey), pj ∈ pjs → pj.address = some addr →
      findEntMatch byA byC pj addr = some (e, k) →
      k ∈ (pjs.foldl (pjStep byA byC) acc).2 := by
  induction pjs with
  | nil => intro acc pj addr e k h; exact absurd h (List.not_mem_nil pj)
  | cons d t ih =>
    intro acc pj addr e k hmem ha hf
    rw [List.foldl_cons]
    rcases List.mem_cons.mp hmem with rfl | hmem'
    · refine pjLoop_snd_sub byA byC t _ k ?_
      simp only [pjStep, ha, hf]
      exact List.mem_append_right _ (List.mem_singleton.mpr rfl)
    · exact ih _ pj addr e k hmem' ha hf

theorem findEntMatch_inv (byA : List (String × EntrepriseData))
    (byC : List ((ℤ × ℤ) × EntrepriseData)) (pj : DataPJ) (addr : Address)
    (e : EntrepriseData) (k : EntKey)
    (h : findEntMatch byA byC pj addr = some (e, k)) :
    (∃ p, k = EntKey.coordK p ∧ dictFind? byC p = some e) ∨
    (k = EntKey.addrK (make_address_key addr) ∧
      dictFind? byA (make_address_key addr) = some e) := by
  unfold findEntMatch at h
  simp only [] at h
  split at h
  · rename_i r heq
    split at heq
    · rcases Option.map_eq_some'.mp heq with ⟨a, ha, har⟩
      obtain rfl : r = (e, k) := Option.some.inj h
      injection har with h5 h6
      subst h5
      subst h6
      exact Or.inl ⟨_, rfl, ha⟩
    · cases heq
  · rcases Option.map_eq_some'.mp h with ⟨a, ha, har⟩
    injection har with h5 h6
    subst h5
    subst h6
    exact Or.inr ⟨rfl, ha⟩

/-- C2 (as amended): fusion consumption accounting. First conjunct: `fuse`
emits at most `n + m` fused records for `n` directory and `m` registry
records. Second conjunct: a registry record consumed by a directory match is
never also re-emitted as a standalone record — its standalone guard is false
once its key is in the matched set. (The claim's stronger "exactly one
fused record per registry record" is false: a registry record reachable
through both its coordinate bucket and its address key can be merged into
two different directory records, see the counterexample.) -/
theorem c2_consumption :
    (∀ (pjs : List DataPJ) (ents : List EntrepriseData),
      (fuse_results pjs ents).length ≤ pjs.length + ents.length) ∧
    (∀ (pjs : List DataPJ) (ents : List EntrepriseData) (pj : DataPJ) (addr : Address)
       (e : EntrepriseData) (k : EntKey), pj ∈ pjs → pj.address = some addr →
      findEntMatch (buildEntIndexes ents).1 (buildEntIndexes ents).2 pj addr = some (e, k) →
      standaloneGuard (matchedKeys pjs ents) e = false ∧
      fuse_results pjs ents =
        (pjs.foldl (pjStep (buildEntIndexes ents).1 (buildEntIndexes ents).2) ([], [])).1 ++
          (ents.filter (standaloneGuard (matchedKeys pjs ents))).map standaloneEntry) := by
  constructor
  · intro pjs ents
    unfold fuse_results
    rw [List.length_append, List.length_map]
    have h1 := pjLoop_fst_len (buildEntIndexes ents).1 (buildEntIndexes ents).2 pjs ([], [])
    have h2 := List.length_filter_le
      (standaloneGuard (pjs.foldl
        (pjStep (buildEntIndexes ents).1 (buildEntIndexes ents).2) ([], [])).2) ents
    simp only [List.length_nil] at h1
    omega
  · intro pjs ents pj addr e k hmem ha hf
    refine ⟨?_, rfl⟩
    have hk : k ∈ matchedKeys pjs ents :=
      pjLoop_matched (buildEntIndexes ents).1 (buildEntIndexes ents).2 pjs ([], [])
        pj addr e k hmem ha hf
    rcases findEntMatch_inv _ _ _ _ _ _ hf with ⟨p, rfl, hd⟩ | ⟨rfl, hd⟩
    · obtain ⟨h1, h2, h3⟩ := buildEntIndexes_coord_inv ents (p, e) (dictFind?_mem hd)
      have hcont : (matchedKeys pjs ents).contains (EntKey.coordK (entCoordKey e)) = true := by
        refine List.elem_iff.mpr ?_
        simp only [] at h3
        rw [← h3]
        exact hk
      unfold standaloneGuard
      simp only [] at h1 h2
      rw [h1, h2, hcont]
      simp
    · obtain ⟨h1, h2⟩ := buildEntIndexes_addr_inv ents (make_address_key addr, e)
        (dictFind?_mem hd)
      have hcont : (matchedKeys pjs ents).contains
          (EntKey.addrK (normalize_address_key (e.address.getD ""))) = true := by
        refine List.elem_iff.mpr ?_
        simp only [] at h2
        rw [← h2]
        exact hk
      unfold standaloneGuard
      rw [hcont]
      simp

/-- C2 counterexample: the registry record `entBoth` is reachable both
through its coordinate bucket (matched by `pjByCoords`) and through its
address key (matched by `pjByAddr`), so its fields are merged into *two*
fused records — it is not consumed after the first merge. -/
theorem c2_counterexample :
    (fuse_results [pjByCoords, pjByAddr] [entBoth]).length = 2 ∧
    (fuse_results [pjByCoords, pjByAddr] [entBoth]).map (fun r => r.entreprise_nom) =
      [some "E", some "E"] ∧
    (fuse_results [pjByCoords, pjByAddr] [entBoth]).map (fun r => r.entreprise_siren) =
      [some "111", some "111"] := by
  refine ⟨by decide, by decide, by decide⟩

/-- Witness for C2 as amended: the count bound at the counterexample inputs,
and the no-re-emission conjunct discharged at the coordinate-matched pair. -/
theorem c2_consumption_witness :
    (fuse_results [pjByCoords, pjByAddr] [entBoth]).length ≤ 2 + 1 ∧
    standaloneGuard (matchedKeys [pjByCoords, pjByAddr] [entBoth]) entBoth = false :=
  ⟨c2_consumption.1 [pjByCoords, pjByAddr] [entBoth],
   (c2_consumption.2 [pjByCoords, pjByAddr] [entBoth] pjByCoords ⟨"9", "z", "1", "q"⟩
      entBoth (EntKey.coordK (10000, 20000)) (by decide) (by decide) (by decide)).1⟩

/-- Witness for C6: with a constant distance of 500 m and a 1 km radius the
record lands in the in-zone list with status `in_zone`. -/
theorem c6_zone_thresholds_witness :
    filter_results_by_zone_and_interest (fun _ _ _ _ => (500 : ℚ))
        [{ fusedMalformedAreas with latitude := some 1, longitude := some 2 }] 0 0 1 =
      ([{ { fusedMalformedAreas with latitude := some 1, longitude := some 2 } with
            distance_to_center := some (roundTE ((fun _ _ _ _ => (500 : ℚ)) 0 0 1 2)),
            filter_status := some "in_zone" }], [], []) :=
  ((c6_zone_thresholds (fun _ _ _ _ => (500 : ℚ)) 0 0 1 (by norm_num)
      { fusedMalformedAreas with latitude := some 1, longitude := some 2 }).1
    1 2 rfl rfl).1 (by norm_num)

end JE
